import Mathlib

/-!
Verification of the declarative scenario engine of akflib
(`akflib.declarative.main`, `akflib.declarative.core`,
`akflib.declarative.util`).

The engine is embedded shallowly: Python strings are Lean `String`s and
all string manipulation is done on their underlying `List Char` with
structural recursion so that concrete runs evaluate inside the kernel.
Python dicts are association lists with first-occurrence lookup (Python
dicts have unique keys, so first-occurrence lookup agrees with dict
lookup), and Python exceptions are `Except` values.
-/

/-- Split a character list at every occurrence of `sep`.  This is the
semantics of Python's `str.split(sep)` for a one-character separator, as
used by `generate_import_statements` (`path.split(".")`) in
`akflib/declarative/main.py`. -/
def splitOnChar (sep : Char) : List Char → List (List Char)
  | [] => [[]]
  | c :: rest =>
    match splitOnChar sep rest with
    | [] => [[c]]
    | h :: t => if c = sep then [] :: h :: t else (c :: h) :: t

/-- Join a list of character lists with the separator `sep` between
consecutive elements: Python's `sep.join(...)` for a one-character
separator. -/
def joinWithChar (sep : Char) : List (List Char) → List Char
  | [] => []
  | [l] => l
  | l :: h :: t => l ++ sep :: joinWithChar sep (h :: t)

/-- Render one dependency path as an import statement, following the body
of `generate_import_statements` (`akflib/declarative/main.py`, lines
43-50): a single-segment path becomes `import path`, and a dotted path
`a.b.c` becomes `from a.b import c`. -/
def renderImportChars (path : List Char) : List Char :=
  let parts := splitOnChar '.' path
  if parts.length = 1 then
    "import ".data ++ path
  else
    "from ".data ++ joinWithChar '.' parts.dropLast ++ " import ".data ++ parts.getLastD []

/-- Embedding of `generate_import_statements` (`akflib/declarative/main.py`,
lines 39-58).  The Python code builds one statement string per path, removes
duplicates by round-tripping through `set` (which enumerates in an
unspecified order), sorts the statements, and joins them with newlines.
Because the final `sort` canonicalises the order, the `set` round-trip is
modelled by `List.dedup`; `akf_c9_deterministic_output` proves that the
output is independent of the enumeration order, which justifies this
modelling. -/
def generate_import_statements (import_paths : List String) : String :=
  let stmts := (import_paths.map (fun p => renderImportChars p.data)).dedup
  let sorted := List.insertionSort (· ≤ ·) stmts
  String.mk (joinWithChar '\n' sorted)

/-- Association-list lookup with first-occurrence semantics.  This models
lookup in a Python dict (dict keys are unique, so the first matching entry
is the only one); it is used both for the module registry cache and for
scenario/action configuration dicts. -/
def alistGet {α : Type} (cache : List (String × α)) (name : String) : Option α :=
  match cache with
  | [] => Option.none
  | (k, v) :: rest => if k = name then some v else alistGet rest name

/-- Embedding of the inner `add_to_cache` of `build_module_cache`
(`akflib/declarative/main.py`, lines 68-80): when the name is already
bound the cache is returned unchanged and a warning is logged (modelled
by the `Bool` component); otherwise the binding is appended (Python dict
insertion adds the new key at the end). -/
def add_to_cache {α : Type} (name : String) (obj : α) (cache : List (String × α)) :
    List (String × α) × Bool :=
  match alistGet cache name with
  | some _ => (cache, true)
  | Option.none => (cache ++ [(name, obj)], false)

/-- Fold a sequence of (name, object) registrations through
`add_to_cache`, starting from `cache`.  `build_module_cache` is this fold
applied to the registration stream it derives from the discovered module
classes. -/
def registerAll {α : Type} (regs : List (String × α)) (cache : List (String × α)) :
    List (String × α) :=
  match regs with
  | [] => cache
  | (n, o) :: rest => registerAll rest (add_to_cache n o cache).1

/-- A discovered `AKFModule` class as `build_module_cache` sees it:
its defining Python module path (`__module__`), its class name
(`__name__`), and its `aliases` attribute.  `aliases := Option.none`
models a class for which `hasattr(module_class, "aliases")` is false. -/
structure ModuleClass where
  modPath : String
  clsName : String
  aliases : Option (List String)
deriving DecidableEq

/-- Embedding of `get_full_qualname` (`akflib/declarative/util.py`, lines
26-32): `".".join([type.__module__, type.__name__])`. -/
def get_full_qualname (m : ModuleClass) : String :=
  m.modPath ++ "." ++ m.clsName

/-- Substitute `al` for the final dot-separated component of `qualname`,
as `build_module_cache` does (`akflib/declarative/main.py`, lines
103-107): split on `"."`, replace the last part, join with `"."`. -/
def substFinalComponent (qualname al : String) : String :=
  String.mk (joinWithChar '.' ((splitOnChar '.' qualname.data).dropLast ++ [al.data]))

/-- The registrations contributed by one discovered module class, in the
order `build_module_cache` performs them (`akflib/declarative/main.py`,
lines 90-109): first the fully qualified name, then, if the class has an
`aliases` attribute, for each alias the bare alias followed by the alias
substituted into the qualified name. -/
def moduleRegistrations (m : ModuleClass) : List (String × ModuleClass) :=
  (get_full_qualname m, m) ::
    (match m.aliases with
     | Option.none => []
     | some as => as.flatMap
        (fun a => [(a, m), (substFinalComponent (get_full_qualname m) a, m)]))

/-- Embedding of `build_module_cache` (`akflib/declarative/main.py`, lines
61-111).  The dynamic discovery step (`get_all_module_classes`, a
recursive import walk) is abstracted by its result: `module_classes` is
the concatenation of the classes discovered in each declared library.
The cache is the fold of each class's registrations through
`add_to_cache`, starting from the empty dict. -/
def build_module_cache (module_classes : List ModuleClass) : List (String × ModuleClass) :=
  registerAll (module_classes.flatMap moduleRegistrations) []

/-- Python values, as far as the engine's claims need them: `None`,
booleans, integers, strings, and (nested) string-keyed dicts. -/
inductive PyVal where
  | pyNone
  | pyBool (b : Bool)
  | pyInt (n : Int)
  | pyStr (s : String)
  | pyDict (entries : List (String × PyVal))

/-- Embedding of Python's dict union `a | b` as used for
`scenario.config | action.config`: every key of `a` keeps its position but
takes `b`'s value when `b` also binds it, and the keys of `b` that are not
in `a` are appended.  Lookup-wise, `b` wins on any top-level collision and
values (including nested dicts) are replaced wholesale. -/
def dictUnion (a b : List (String × PyVal)) : List (String × PyVal) :=
  a.map (fun p => (p.1, ((alistGet b p.1).getD p.2))) ++
    b.filter (fun p => (alistGet a p.1).isNone)

/-- A pydantic `ValidationError`, as far as the engine observes it: the
title of the model that failed to validate and the names of the offending
(missing) fields.  pydantic builds this error inside
`model_validate`, from the model and the raw data alone; the engine never
adds anything to it. -/
structure ValidationError where
  model : String
  missingFields : List String
deriving DecidableEq

/-- A concrete `AKFModule` implementation as the engines use it
(`akflib/declarative/core.py`): its `aliases` and `dependencies` class
attributes, its two pydantic validators (`arg_model.model_validate` and
`config_model.model_validate`, which either fail or produce the typed
value), and its two operations.  `generate_code` returns the emitted
source fragment together with the (possibly updated) state;
`execute` returns the updated state together with the lines it printed. -/
structure AKFModule where
  aliases : List String
  dependencies : List String
  arg_model : List (String × PyVal) → Except ValidationError PyVal
  config_model : List (String × PyVal) → Except ValidationError PyVal
  generate_code : PyVal → PyVal → List (String × PyVal) → String × List (String × PyVal)
  execute : PyVal → PyVal → List (String × PyVal) → List (String × PyVal) × List String

/-- Embedding of `AKFAction` (`akflib/declarative/core.py`, lines 43-63). -/
structure AKFAction where
  name : String
  config : List (String × PyVal)
  module : String
  args : List (String × PyVal)

/-- Embedding of `AKFScenario` (`akflib/declarative/core.py`, lines
68-105). -/
structure AKFScenario where
  name : String
  description : String
  author : String
  seed : Option String
  config : List (String × PyVal)
  libraries : List String
  actions : List AKFAction

/-- Embedding of `execute_module` (`akflib/declarative/main.py`, lines
152-166): validate the arguments, then the configuration, then run the
module's `execute`.  A raised `ValidationError` propagates unchanged. -/
def execute_module (m : AKFModule) (args config state : List (String × PyVal)) :
    Except ValidationError (List (String × PyVal) × List String) := do
  let args_model ← m.arg_model args
  let config_model ← m.config_model config
  Except.ok (m.execute args_model config_model state)

/-- Embedding of `generate_code_from_module` (`akflib/declarative/main.py`,
lines 169-183). -/
def generate_code_from_module (m : AKFModule) (args config state : List (String × PyVal)) :
    Except ValidationError (String × List (String × PyVal)) := do
  let args_model ← m.arg_model args
  let config_model ← m.config_model config
  Except.ok (m.generate_code args_model config_model state)

/-- The configuration dict passed to a module for one action, in both
engine modes: `scenario.config | action.config`
(`akflib/declarative/main.py`, lines 202 and 254). -/
def mergedConfig (scenario : AKFScenario) (action : AKFAction) : List (String × PyVal) :=
  dictUnion scenario.config action.config

/-- Errors that abort an engine pass: a `KeyError` from
`modules[action.module]`, or a propagated pydantic `ValidationError`. -/
inductive EngineError where
  | keyError (name : String)
  | validation (e : ValidationError)
deriving DecidableEq

/-- The Python value passed to `random.seed(scenario.seed)` by the
execution engine: the seed string itself when set, `None` otherwise
(`scenario.seed` has type `str | None`). -/
def seedValue (seed : Option String) : PyVal :=
  match seed with
  | Option.none => PyVal.pyNone
  | some s => PyVal.pyStr s

/-- How `f"random.seed({scenario.seed})"` renders the seed: Python
f-string interpolation applies `str`, so a set seed is inserted verbatim
(without quotes) and an unset seed renders as `None`. -/
def seedFString (seed : Option String) : String :=
  match seed with
  | Option.none => "None"
  | some s => s

/-- The observable outcome of running the action loop of the execution
engine: the names of the actions whose `execute` was invoked, the lines
printed by those invocations, the `logger.info` lines emitted by the
engine itself, the final shared state, and the error that aborted the
run, if any. -/
structure RunResult where
  executed : List String
  output : List String
  logs : List String
  finalState : List (String × PyVal)
  error : Option EngineError

/-- The action loop of `execution_entrypoint`
(`akflib/declarative/main.py`, lines 198-202): for each action in order,
look the module up (`KeyError` aborts), log `"Executing action: <name>"`,
and call `execute_module` with the action's args, the merged
configuration, and the shared state.  A `ValidationError` aborts the
whole scenario; no later action's `execute` is invoked. -/
def runActions (modules : List (String × AKFModule)) (scenario : AKFScenario) :
    List AKFAction → List (String × PyVal) → RunResult
  | [], state => ⟨[], [], [], state, Option.none⟩
  | action :: rest, state =>
    match alistGet modules action.module with
    | Option.none => ⟨[], [], [], state, some (EngineError.keyError action.module)⟩
    | some m =>
      match execute_module m action.args (mergedConfig scenario action) state with
      | Except.error e =>
          ⟨[], [], ["Executing action: " ++ action.name], state,
            some (EngineError.validation e)⟩
      | Except.ok (state', out) =>
          let r := runActions modules scenario rest state'
          ⟨action.name :: r.executed, out ++ r.output,
            ("Executing action: " ++ action.name) :: r.logs, r.finalState, r.error⟩

/-- The outcome of `execution_entrypoint`: the value passed to
`random.seed` before the first action, and the result of the action
loop. -/
structure ExecOutcome where
  seedArg : PyVal
  run : RunResult

/-- Embedding of `execution_entrypoint` (`akflib/declarative/main.py`,
lines 186-203): start from an empty state, call
`random.seed(scenario.seed)` unconditionally, then run the actions in
declared order. -/
def execution_entrypoint (scenario : AKFScenario) (modules : List (String × AKFModule)) :
    ExecOutcome :=
  ⟨seedValue scenario.seed, runActions modules scenario scenario.actions []⟩

/-- The generated program's header: `align_text` (dedent + strip) applied
to the docstring literal of `translation_entrypoint`
(`akflib/declarative/main.py`, lines 212-218). -/
def translationHeader : String :=
  "\"\"\"\nThis file was automatically generated by akf-translate.\n\nVerify that the generated code is correct before running it.\n\"\"\""

/-- The generated program's fixed logging-setup block: `align_text`
applied to the literal at `akflib/declarative/main.py`, lines 233-242. -/
def loggingBlock : String :=
  "# Set up logging\nlogging.basicConfig(\n    handlers=[logging.StreamHandler(sys.stdout)],\n    level=logging.INFO,\n    format=\"%(filename)s:%(lineno)d | %(asctime)s | [%(levelname)s] - %(message)s\",\n    datefmt=\"%Y-%m-%d %H:%M:%S\",\n)\nlogger = logging.getLogger()"

/-- The dependency-collection loop of `translation_entrypoint`
(`akflib/declarative/main.py`, lines 226-228): look up each action's
module (a missing name raises `KeyError`) and take all declared
dependencies, in action order, duplicates retained.  The Python code
accumulates these into a `set`; `akf_c9_deterministic_output` shows that
the emitted import block does not depend on the enumeration order of that
set, so this list is a faithful representative of it. -/
def collectDeps (modules : List (String × AKFModule)) :
    List AKFAction → Except EngineError (List String)
  | [] => Except.ok []
  | action :: rest =>
    match alistGet modules action.module with
    | Option.none => Except.error (EngineError.keyError action.module)
    | some m => (fun ds => m.dependencies ++ ds) <$> collectDeps modules rest

/-- The full dependency set of a translation pass: the engine's baseline
`{"logging", "random", "sys"}` (`akflib/declarative/main.py`, line 225 —
note that `"random"` is always present) plus every resolved module's
`dependencies`. -/
def translationDeps (scenario : AKFScenario) (modules : List (String × AKFModule)) :
    Except EngineError (List String) :=
  (fun ds => ["logging", "random", "sys"] ++ ds) <$> collectDeps modules scenario.actions

/-- The per-action loop of `translation_entrypoint`
(`akflib/declarative/main.py`, lines 248-258).  For each action in order
the engine emits `# <action.name>`, then
`logger.info(r'Executing action: <action.name>')`, then the module's
`generate_code` output, then one extra newline, threading the shared
state through the whole pass. -/
def translationActions (modules : List (String × AKFModule)) (scenario : AKFScenario) :
    List AKFAction → List (String × PyVal) →
      Except EngineError (String × List (String × PyVal))
  | [], state => Except.ok ("", state)
  | action :: rest, state =>
    match alistGet modules action.module with
    | Option.none => Except.error (EngineError.keyError action.module)
    | some m =>
      match generate_code_from_module m action.args (mergedConfig scenario action) state with
      | Except.error e => Except.error (EngineError.validation e)
      | Except.ok (code, state') =>
          (fun r =>
            ("# " ++ action.name ++ "\n" ++
              "logger.info(r\x27Executing action: " ++ action.name ++ "\x27)\n" ++
              code ++ "\n" ++ r.1, r.2)) <$>
            translationActions modules scenario rest state'

/-- The initial shared state of a translation pass
(`akflib/declarative/main.py`, line 209). -/
def translationInitialState : List (String × PyVal) :=
  [("indentation_level", PyVal.pyInt 0)]

/-- Assembly of the generated program around a given import block,
following `translation_entrypoint` (`akflib/declarative/main.py`, lines
205-259): header, imports, logging block, the unconditional
`random.seed(<seed>)` statement, the per-action fragments, and one final
newline. -/
def translation_with_imports (scenario : AKFScenario) (modules : List (String × AKFModule))
    (importBlock : String) : Except EngineError String :=
  match translationActions modules scenario scenario.actions translationInitialState with
  | Except.error e => Except.error e
  | Except.ok (body, _) =>
      Except.ok (translationHeader ++ "\n\n" ++ importBlock ++ "\n\n" ++ loggingBlock ++
        "\n\n" ++ "random.seed(" ++ seedFString scenario.seed ++ ")\n\n" ++ body ++ "\n")

/-- Embedding of `translation_entrypoint` (`akflib/declarative/main.py`,
lines 205-259): collect the dependencies (this is where a missing module
name raises, as the dependency loop precedes the code-generation loop),
render the import block, and assemble the program text. -/
def translation_entrypoint (scenario : AKFScenario) (modules : List (String × AKFModule)) :
    Except EngineError String :=
  match translationDeps scenario modules with
  | Except.error e => Except.error e
  | Except.ok deps => translation_with_imports scenario modules (generate_import_statements deps)

/-- Boolean prefix test on character lists. -/
def isPrefixOfChars : List Char → List Char → Bool
  | [], _ => true
  | _ :: _, [] => false
  | c :: cs, d :: ds => c = d && isPrefixOfChars cs ds

/-- Boolean substring test on character lists. -/
def containsChars (pat : List Char) : List Char → Bool
  | [] => isPrefixOfChars pat []
  | c :: rest => isPrefixOfChars pat (c :: rest) || containsChars pat rest

/-- Substring test on strings (Python's `pat in s`). -/
def strContains (pat s : String) : Bool :=
  containsChars pat.data s.data

/-- A run of spaces of the given length. -/
def spacesList : Nat → List Char
  | 0 => []
  | n + 1 => ' ' :: spacesList n

/-- Embedding of `indent_text` (`akflib/declarative/util.py`, lines
42-52) at its default of 4 spaces per level: prefix every line with
`4 * indentation` spaces. -/
def indent_text (text : String) (indentation : Nat) : String :=
  String.mk (joinWithChar '\n'
    ((splitOnChar '\n' text.data).map (fun l => spacesList (4 * indentation) ++ l)))

/-- The indentation level a module reads from the shared state:
`state.get("indentation_level", 0)` (`akflib/declarative/util.py`, line
61). -/
def indentLevel (state : List (String × PyVal)) : Nat :=
  match alistGet state "indentation_level" with
  | some (PyVal.pyInt n) => n.toNat
  | _ => 0

/-- String value of a field of a validated argument object, used by the
sample module's `generate_code`/`execute` to read `args.arg1` /
`args.arg2`. -/
def argStr (args : PyVal) (field : String) : String :=
  match args with
  | PyVal.pyDict d =>
      match alistGet d field with
      | some (PyVal.pyStr s) => s
      | _ => ""
  | _ => ""

/-- The required fields of `SampleModuleArgs`
(`akflib/modules/sample.py`: `arg1: str` and `arg2: str`, both without
defaults). -/
def sampleRequiredFields : List String := ["arg1", "arg2"]

/-- The pydantic validator of `SampleModuleArgs`: `model_validate` fails
with a `ValidationError` listing every missing required field (pydantic
reports the model's title and, per error, the offending field); when both
fields are present the typed object carries them. -/
def sampleArgModel (args : List (String × PyVal)) : Except ValidationError PyVal :=
  match sampleRequiredFields.filter (fun f => (alistGet args f).isNone) with
  | [] => Except.ok (PyVal.pyDict args)
  | missing => Except.error ⟨"SampleModuleArgs", missing⟩

/-- The pydantic validator of `SampleModuleConfig` (`config1: str =
"default"`, so validation always succeeds and fills in the default). -/
def sampleConfigModel (config : List (String × PyVal)) : Except ValidationError PyVal :=
  Except.ok (PyVal.pyDict
    [("config1", (alistGet config "config1").getD (PyVal.pyStr "default"))])

/-- The single code line produced by `SampleModule.generate_code`
(`akflib/modules/sample.py`, lines 32-39) before `auto_format`:
the f-string `print(f'I choose {random.choice(("<arg1>", "<arg2>"))}')`
with the argument values interpolated (`align_text` of the one-line
template is the line itself, without its trailing newline). -/
def sampleCodeLine (arg1 arg2 : String) : String :=
  "print(f\x27I choose \x7brandom.choice((\"" ++ arg1 ++ "\", \"" ++ arg2 ++
    "\"))\x7d\x27)"

/-- Embedding of `SampleModule` (`akflib/modules/sample.py`).
`generate_code` applies `auto_format`, i.e. indents the single template
line by the state's `indentation_level` and appends one newline, leaving
the state unchanged.  `execute` prints one line whose chosen word is
`random.choice((args.arg1, args.arg2))`; the pick depends on the hidden
process-wide PRNG state, which a shallow embedding cannot compute, so it
is abstracted as the `choice` parameter (every theorem below is
independent of it). -/
def sampleModule (choice : String → String → String) : AKFModule where
  aliases := ["sample"]
  dependencies := ["random"]
  arg_model := sampleArgModel
  config_model := sampleConfigModel
  generate_code := fun args _ state =>
    (indent_text (sampleCodeLine (argStr args "arg1") (argStr args "arg2"))
        (indentLevel state) ++ "\n", state)
  execute := fun args _ state =>
    (state, ["I choose " ++ choice (argStr args "arg1") (argStr args "arg2")])

/-- An arbitrary concrete pick, used to instantiate `sampleModule` in
closed statements whose truth does not depend on the pick. -/
def pickFst : String → String → String := fun a _ => a

/-- The shape of a Python class as `AKFModule.__init_subclass__` observes
it (`akflib/declarative/core.py`, lines 155-186): `attrValues` is the set
of names for which `hasattr(cls, name)` is true (attribute values,
inherited ones included — `AKFModule` itself only annotates and never
assigns the four required names, so for them this means the subclass
provides a value), and `ownAnns` is the key set of
`getattr(cls, "__annotations__", {})`, which on Python ≥ 3.10 holds the
class's own annotations and is empty for a class body without annotated
assignments. -/
structure PyClassShape where
  clsName : String
  attrValues : List String
  ownAnns : List String

/-- The `REQUIRED_ATTRIBUTES` list of `AKFModule.__init_subclass__`
(`akflib/declarative/core.py`, line 185). -/
def requiredAttributes : List String :=
  ["aliases", "arg_model", "config_model", "dependencies"]

/-- One attribute check of `AKFModule.check_required_attributes`
(`akflib/declarative/core.py`, line 173): the attribute exists either as
a value or as an annotation. -/
def hasRequiredAttribute (cls : PyClassShape) (attr : String) : Bool :=
  cls.attrValues.contains attr || cls.ownAnns.contains attr

/-- Embedding of `AKFModule.check_required_attributes`
(`akflib/declarative/core.py`, lines 155-177): raise `TypeError` for the
first required attribute that exists neither as a value nor as an own
annotation. -/
def check_required_attributes (cls : PyClassShape) (required : List String) :
    Except String Unit :=
  match required.find? (fun attr => !hasRequiredAttribute cls attr) with
  | some attr =>
      Except.error ("Can\x27t instantiate abstract class " ++ cls.clsName ++
        " without required attribute \x27" ++ attr ++ "\x27")
  | Option.none => Except.ok ()

/-- Embedding of `AKFModule.__init_subclass__`
(`akflib/declarative/core.py`, lines 179-186), which Python runs at class
definition time, before any instance of the subclass can exist. -/
def initSubclassCheck (cls : PyClassShape) : Except String Unit :=
  check_required_attributes cls requiredAttributes

/-- Numeric value of a digit string (Python's reading of a decimal
integer literal). -/
def digitsToNat (cs : List Char) : Nat :=
  cs.foldl (fun n c => 10 * n + (c.toNat - 48)) 0

/-- Modelled from the spec: the round-trip equivalence property compares
the execution engine with *running the generated Python text*, so the
Python value denoted by the literal interpolated into
`random.seed(<seed>)` is needed.  Python reads a digit sequence as an
`int`, a `'...'`-quoted token as a `str`, and `None` as `None`; anything
else is not a self-evaluating literal. -/
def pyLiteralValue (s : String) : Option PyVal :=
  if s = "None" then some PyVal.pyNone
  else if !s.data.isEmpty && s.data.all Char.isDigit then
    some (PyVal.pyInt (digitsToNat s.data))
  else
    match s.data with
    | q :: rest =>
        if (q == '\x27') && !rest.isEmpty && (rest.getLast? == some '\x27') then
          some (PyVal.pyStr (String.mk rest.dropLast))
        else Option.none
    | [] => Option.none

/-- Modelled from the spec's words for claim C6 ("deduplicate, then sort
lexicographically, then render one statement per dependency"):
deduplicate and sort the dependency paths themselves, then render.  This
is the comparison point for the corrected claim; the code
(`generate_import_statements`) renders first and deduplicates and sorts
the rendered statements. -/
def generate_import_statements_specOrder (import_paths : List String) : String :=
  String.mk (joinWithChar '\n'
    ((List.insertionSort (· ≤ ·) ((import_paths.map String.data).dedup)).map
      renderImportChars))

/-- The spec's example action: one action named `"pick"` referencing the
two-string sample module with `args = {arg1: "heads", arg2: "tails"}`. -/
def pickAction : AKFAction :=
  ⟨"pick", [], "sample", [("arg1", PyVal.pyStr "heads"), ("arg2", PyVal.pyStr "tails")]⟩

/-- The spec's example end-to-end scenario, with `seed = "42"`. -/
def exampleScenario : AKFScenario :=
  ⟨"sample", "Example scenario", "author", some "42", [], [], [pickAction]⟩

/-- The resolved module set for the example scenario. -/
def exampleModules : List (String × AKFModule) :=
  [("sample", sampleModule pickFst)]

/-- A scenario whose seed is not set (and with no actions), used to
examine the seed statement of the generated program. -/
def scenarioNoSeed : AKFScenario :=
  ⟨"sample", "Example scenario", "author", Option.none, [], [], []⟩

/-- An action with valid sample-module arguments, executed before the
failing one. -/
def goodAction : AKFAction :=
  ⟨"pick0", [], "sample", [("arg1", PyVal.pyStr "heads"), ("arg2", PyVal.pyStr "tails")]⟩

/-- An action whose `args` mapping is missing the required field
`arg2`. -/
def badAction : AKFAction :=
  ⟨"pick1", [], "sample", [("arg1", PyVal.pyStr "heads")]⟩

/-- An action scheduled after the failing one; its `execute` must never
be invoked. -/
def afterAction : AKFAction :=
  ⟨"pick2", [], "sample", [("arg1", PyVal.pyStr "x"), ("arg2", PyVal.pyStr "y")]⟩

/-- A scenario in which the second of three actions fails schema
validation. -/
def scenarioBadArgs : AKFScenario :=
  ⟨"bad", "Validation failure scenario", "author", Option.none, [], [],
    [goodAction, badAction, afterAction]⟩

/-- Whether a pydantic validation error mentions a given name, either as
the failing model's title or as an offending field. -/
def errMentions (e : ValidationError) (s : String) : Bool :=
  (e.model == s) || e.missingFields.contains s

/-- The sorted import block of every scenario resolved against the sample
module alone (dependencies `{"logging", "random", "sys"} ∪ {"random"}`). -/
def baselineImportBlock : String :=
  "import logging\nimport random\nimport sys"

/-- The text `translation_entrypoint` produces for `scenarioNoSeed`:
header, imports, logging block, and — although the seed is unset — the
statement `random.seed(None)`. -/
def noSeedGeneratedText : String :=
  translationHeader ++ "\n\n" ++ baselineImportBlock ++ "\n\n" ++ loggingBlock ++ "\n\n" ++
    "random.seed(None)\n\n" ++ "\n"

/-- The code fragment `SampleModule.generate_code` returns for the
example action at indentation level 0. -/
def sampleGeneratedCode : String :=
  "print(f\x27I choose \x7brandom.choice((\"heads\", \"tails\"))\x7d\x27)\n"

/-- The per-action text the code generation engine emits for the example
action `"pick"`: comment line, `logger.info` line, module output, one
blank line. -/
def pickFragment : String :=
  "# pick\nlogger.info(r\x27Executing action: pick\x27)\n" ++ sampleGeneratedCode ++ "\n"

/-- The per-action text claim C7 describes: comment line, module output,
one blank line, nothing else. -/
def pickClaimFragment : String :=
  "# pick\n" ++ sampleGeneratedCode ++ "\n"

/-- The full text `translation_entrypoint` produces for the example
scenario.  Its seed statement is `random.seed(42)` — the seed string is
interpolated without quotes, so the generated program seeds the PRNG with
the `int` 42 while the execution engine seeds it with the `str` "42". -/
def exampleGeneratedText : String :=
  translationHeader ++ "\n\n" ++ baselineImportBlock ++ "\n\n" ++ loggingBlock ++ "\n\n" ++
    "random.seed(42)\n\n" ++ pickFragment ++ "\n"

/-- The module class of the spec's registry example: `pkg.mod.Sample`
with the declared alias `"sample"`. -/
def sampleClass : ModuleClass :=
  ⟨"pkg.mod", "Sample", some ["sample"]⟩

/-- A scenario-level configuration used to exercise the merge: a colliding
scalar, a colliding nested mapping, and a key only the scenario sets. -/
def mergeScenario : AKFScenario :=
  ⟨"m", "merge", "author", Option.none,
    [("a", PyVal.pyInt 1), ("n", PyVal.pyDict [("x", PyVal.pyInt 1)]), ("b", PyVal.pyInt 7)],
    [], []⟩

/-- An action whose configuration collides with `mergeScenario`'s on `"a"`
and on the nested mapping `"n"`. -/
def mergeAction : AKFAction :=
  ⟨"merge", [("a", PyVal.pyInt 2), ("n", PyVal.pyDict [("y", PyVal.pyInt 2)])], "sample", []⟩

/-- A subclass shape that provides none of the four required attributes,
neither as values nor as own annotations (a bare `class Bad(AKFModule):
pass`). -/
def badClass : PyClassShape :=
  ⟨"Bad", [], []⟩

/-- A subclass shape that provides all four required attributes, the way
`SampleModule` does (three as plain class attributes, `dependencies` as an
annotated assignment). -/
def goodClass : PyClassShape :=
  ⟨"SampleModule", ["aliases", "arg_model", "config_model", "dependencies"],
    ["dependencies"]⟩

/-! Helper lemmas about association lists and the registry fold. -/

theorem alistGet_append_left {α : Type} {l1 l2 : List (String × α)} {k : String} {v : α}
    (h : alistGet l1 k = some v) : alistGet (l1 ++ l2) k = some v := by
  induction l1 with
  | nil => simp [alistGet] at h
  | cons p rest ih =>
    obtain ⟨k', w⟩ := p
    by_cases hk : k' = k
    · simpa [alistGet, hk] using h
    · simp only [alistGet, hk, if_false, List.cons_append] at h ⊢
      exact ih h

theorem alistGet_append_none {α : Type} {l1 : List (String × α)} (l2 : List (String × α))
    {k : String} (h : alistGet l1 k = Option.none) :
    alistGet (l1 ++ l2) k = alistGet l2 k := by
  induction l1 with
  | nil => simp [alistGet]
  | cons p rest ih =>
    obtain ⟨k', w⟩ := p
    by_cases hk : k' = k
    · simp [alistGet, hk] at h
    · simp only [alistGet, hk, if_false, List.cons_append] at h ⊢
      exact ih h

theorem registerAll_preserves {α : Type} (regs : List (String × α))
    {cache : List (String × α)} {k : String} {v : α}
    (h : alistGet cache k = some v) : alistGet (registerAll regs cache) k = some v := by
  induction regs generalizing cache with
  | nil => simpa [registerAll] using h
  | cons r rest ih =>
    obtain ⟨n, o⟩ := r
    cases h2 : alistGet cache n with
    | some w =>
      have hc : (add_to_cache n o cache).1 = cache := by simp [add_to_cache, h2]
      simp only [registerAll, hc]
      exact ih h
    | none =>
      have hc : (add_to_cache n o cache).1 = cache ++ [(n, o)] := by simp [add_to_cache, h2]
      simp only [registerAll, hc]
      exact ih (alistGet_append_left h)

theorem registerAll_first {α : Type} (regs : List (String × α))
    (cache : List (String × α)) (k : String) (h : alistGet cache k = Option.none) :
    alistGet (registerAll regs cache) k =
      ((regs.find? (fun r => r.1 == k)).map Prod.snd) := by
  induction regs generalizing cache with
  | nil => simpa [registerAll, List.find?] using h
  | cons r rest ih =>
    obtain ⟨n, o⟩ := r
    by_cases hnk : n = k
    · subst hnk
      have hc : (add_to_cache n o cache).1 = cache ++ [(n, o)] := by simp [add_to_cache, h]
      have hg : alistGet (cache ++ [(n, o)]) n = some o := by
        rw [alistGet_append_none _ h]; simp [alistGet]
      simp only [registerAll, hc, List.find?, beq_self_eq_true, Option.map_some]
      exact registerAll_preserves rest hg
    · have hfind : ((n, o) :: rest).find? (fun r => r.1 == k) =
          rest.find? (fun r => r.1 == k) := by
        simp [List.find?, beq_eq_false_iff_ne.2 hnk]
      rw [hfind]
      cases h2 : alistGet cache n with
      | some w =>
        have hc : (add_to_cache n o cache).1 = cache := by simp [add_to_cache, h2]
        simp only [registerAll, hc]
        exact ih cache h
      | none =>
        have hc : (add_to_cache n o cache).1 = cache ++ [(n, o)] := by simp [add_to_cache, h2]
        have h' : alistGet (cache ++ [(n, o)]) k = Option.none := by
          rw [alistGet_append_none _ h]; simp [alistGet, hnk]
        simp only [registerAll, hc]
        exact ih _ h'

theorem dictUnion_map_get (a b : List (String × PyVal)) (k : String) :
    alistGet (a.map (fun p => (p.1, ((alistGet b p.1).getD p.2)))) k =
      (alistGet a k).map (fun v => (alistGet b k).getD v) := by
  induction a with
  | nil => simp [alistGet]
  | cons p rest ih =>
    obtain ⟨k', w⟩ := p
    by_cases hk : k' = k
    · subst hk; simp [alistGet]
    · simp only [List.map_cons, alistGet, hk, if_false]
      exact ih

theorem dictUnion_filter_get (a b : List (String × PyVal)) (k : String) :
    alistGet (b.filter (fun p => (alistGet a p.1).isNone)) k =
      if (alistGet a k).isNone then alistGet b k else Option.none := by
  induction b with
  | nil => simp [alistGet]
  | cons p rest ih =>
    obtain ⟨k', w⟩ := p
    by_cases hk : k' = k
    · subst hk
      cases ha : alistGet a k' with
      | some v => simpa [List.filter, alistGet, ha] using ih
      | none => simp [List.filter, alistGet, ha]
    · cases hP : (alistGet a k').isNone with
      | true => simpa [List.filter, hP, alistGet, hk] using ih
      | false => simpa [List.filter, hP, alistGet, hk] using ih

theorem dictUnion_get_right {a b : List (String × PyVal)} {k : String} {v : PyVal}
    (h : alistGet b k = some v) : alistGet (dictUnion a b) k = some v := by
  unfold dictUnion
  cases ha : alistGet a k with
  | some w =>
    apply alistGet_append_left
    rw [dictUnion_map_get, ha]
    simp [h]
  | none =>
    have hmap : alistGet (a.map (fun p => (p.1, ((alistGet b p.1).getD p.2)))) k =
        Option.none := by
      rw [dictUnion_map_get, ha]; rfl
    rw [alistGet_append_none _ hmap, dictUnion_filter_get, ha]
    simpa using h

theorem dictUnion_get_left {a b : List (String × PyVal)} {k : String}
    (h : alistGet b k = Option.none) : alistGet (dictUnion a b) k = alistGet a k := by
  unfold dictUnion
  cases ha : alistGet a k with
  | some w =>
    apply alistGet_append_left
    rw [dictUnion_map_get, ha]
    simp [h]
  | none =>
    have hmap : alistGet (a.map (fun p => (p.1, ((alistGet b p.1).getD p.2)))) k =
        Option.none := by
      rw [dictUnion_map_get, ha]; rfl
    rw [alistGet_append_none _ hmap, dictUnion_filter_get, ha]
    simpa using h

theorem build_module_cache_lookup (classes : List ModuleClass) (n : String) (m : ModuleClass)
    (hex : ∃ p ∈ classes.flatMap moduleRegistrations, p.1 = n)
    (hval : ∀ p ∈ classes.flatMap moduleRegistrations, p.1 = n → p.2 = m) :
    alistGet (build_module_cache classes) n = some m := by
  unfold build_module_cache
  rw [registerAll_first (classes.flatMap moduleRegistrations) [] n (by simp [alistGet])]
  have hsome : ((classes.flatMap moduleRegistrations).find? (fun r => r.1 == n)).isSome := by
    rw [List.find?_isSome]
    obtain ⟨p, hp, hpn⟩ := hex
    exact ⟨p, hp, by simpa using hpn⟩
  obtain ⟨q, hq⟩ := Option.isSome_iff_exists.1 hsome
  have hqmem := List.mem_of_find?_eq_some hq
  have hqpred := List.find?_some hq
  have hqn : q.1 = n := by simpa using hqpred
  rw [hq]
  simp [hval q hqmem hqn]

theorem runActions_append (modules : List (String × AKFModule)) (scenario : AKFScenario)
    (pre post : List AKFAction) (st : List (String × PyVal))
    (h : (runActions modules scenario pre st).error = Option.none) :
    runActions modules scenario (pre ++ post) st =
      ⟨(runActions modules scenario pre st).executed ++
          (runActions modules scenario post
            (runActions modules scenario pre st).finalState).executed,
        (runActions modules scenario pre st).output ++
          (runActions modules scenario post
            (runActions modules scenario pre st).finalState).output,
        (runActions modules scenario pre st).logs ++
          (runActions modules scenario post
            (runActions modules scenario pre st).finalState).logs,
        (runActions modules scenario post
          (runActions modules scenario pre st).finalState).finalState,
        (runActions modules scenario post
          (runActions modules scenario pre st).finalState).error⟩ := by
  induction pre generalizing st with
  | nil => simp [runActions]
  | cons a pre' ih =>
    cases hm : alistGet modules a.module with
    | none => simp [runActions, hm] at h
    | some m =>
      cases he : execute_module m a.args (mergedConfig scenario a) st with
      | error e => simp [runActions, hm, he] at h
      | ok p =>
        obtain ⟨st', out⟩ := p
        have h' : (runActions modules scenario pre' st').error = Option.none := by
          simpa [runActions, hm, he] using h
        simp [runActions, hm, he, ih st' h', List.append_assoc]

theorem generate_import_statements_ext (l1 l2 : List String)
    (h : ∀ x, x ∈ l1 ↔ x ∈ l2) :
    generate_import_statements l1 = generate_import_statements l2 := by
  have hp :
      List.Perm
        (List.insertionSort (· ≤ ·) ((l1.map (fun p => renderImportChars p.data)).dedup))
        (List.insertionSort (· ≤ ·) ((l2.map (fun p => renderImportChars p.data)).dedup)) := by
    have hn1 : (List.insertionSort (· ≤ ·)
        ((l1.map (fun p => renderImportChars p.data)).dedup)).Nodup :=
      (List.perm_insertionSort _ _).nodup_iff.2 (List.nodup_dedup _)
    have hn2 : (List.insertionSort (· ≤ ·)
        ((l2.map (fun p => renderImportChars p.data)).dedup)).Nodup :=
      (List.perm_insertionSort _ _).nodup_iff.2 (List.nodup_dedup _)
    refine (List.perm_ext_iff_of_nodup hn1 hn2).2 (fun s => ?_)
    rw [(List.perm_insertionSort _ _).mem_iff, (List.perm_insertionSort _ _).mem_iff,
      List.mem_dedup, List.mem_dedup, List.mem_map, List.mem_map]
    exact ⟨fun ⟨p, hp, he⟩ => ⟨p, (h p).1 hp, he⟩, fun ⟨p, hp, he⟩ => ⟨p, (h p).2 hp, he⟩⟩
  have hperm :
      List.insertionSort (· ≤ ·) ((l1.map (fun p => renderImportChars p.data)).dedup) =
        List.insertionSort (· ≤ ·) ((l2.map (fun p => renderImportChars p.data)).dedup) :=
    List.eq_of_perm_of_sorted hp (List.sorted_insertionSort _ _)
      (List.sorted_insertionSort _ _)
  exact congrArg (fun L => String.mk (joinWithChar '\n' L)) hperm

/-- C2: for every sequence of registrations into the module registry
cache, the first registration of a name wins: registering into an
occupied name leaves the cache unchanged and emits a warning (and, being
a total function, raises nothing), registering into a free name appends
the binding, and any binding already present survives any further
sequence of registrations unchanged — the cache only grows and no entry
is ever overwritten. -/
theorem akf_c2_first_registration_wins {α : Type} (cache : List (String × α))
    (name : String) (obj w : α) (regs : List (String × α)) (k : String) (v : α) :
    (alistGet cache name = some w → add_to_cache name obj cache = (cache, true)) ∧
    (alistGet cache name = Option.none →
      add_to_cache name obj cache = (cache ++ [(name, obj)], false)) ∧
    (alistGet cache k = some v → alistGet (registerAll regs cache) k = some v) := by
  refine ⟨fun h => ?_, fun h => ?_, fun h => registerAll_preserves regs h⟩
  · simp [add_to_cache, h]
  · simp [add_to_cache, h]

/-- Witness for C2 at a concrete cache: re-registering `"a"` warns and
leaves the cache unchanged, registering the fresh `"b"` appends it, and
the original binding of `"a"` survives a later conflicting registration
sequence. -/
theorem akf_c2_first_registration_wins_witness :
    add_to_cache "a" (1 : Nat) [("a", 0)] = ([("a", 0)], true) ∧
    add_to_cache "b" (2 : Nat) [("a", 0)] = ([("a", 0), ("b", 2)], false) ∧
    alistGet (registerAll [("a", 3), ("b", 4)] [("a", 0)]) "a" = some 0 := by
  refine ⟨(akf_c2_first_registration_wins [("a", 0)] "a" 1 0 [] "a" 0).1 rfl,
    (akf_c2_first_registration_wins [("a", 0)] "b" 2 0 [] "a" 0).2.1 rfl,
    (akf_c2_first_registration_wins [("a", 0)] "a" 1 0 [("a", 3), ("b", 4)] "a" 0).2.2 rfl⟩

/-- C3: a module discovered with canonical qualified name `Q` and a
declared alias `a` is reachable in the built cache under `Q`, under the
bare alias `a`, and under `Q` with its final component replaced by `a`,
provided no other registration in the stream claims one of those three
names with a different module (the "absent prior conflicting
registrations" proviso). -/
theorem akf_c3_alias_names (classes : List ModuleClass) (m : ModuleClass)
    (as : List String) (a : String)
    (hm : m ∈ classes) (hal : m.aliases = some as) (ha : a ∈ as)
    (hnoconf : ∀ p ∈ classes.flatMap moduleRegistrations,
      (p.1 = get_full_qualname m ∨ p.1 = a ∨
        p.1 = substFinalComponent (get_full_qualname m) a) → p.2 = m) :
    alistGet (build_module_cache classes) (get_full_qualname m) = some m ∧
    alistGet (build_module_cache classes) a = some m ∧
    alistGet (build_module_cache classes)
      (substFinalComponent (get_full_qualname m) a) = some m := by
  have hqmem : (get_full_qualname m, m) ∈ classes.flatMap moduleRegistrations :=
    List.mem_flatMap.2 ⟨m, hm, by simp [moduleRegistrations]⟩
  have hamem : (a, m) ∈ classes.flatMap moduleRegistrations :=
    List.mem_flatMap.2 ⟨m, hm, by
      simp only [moduleRegistrations, hal, List.mem_cons]
      exact Or.inr (List.mem_flatMap.2 ⟨a, ha, by simp⟩)⟩
  have hsmem : (substFinalComponent (get_full_qualname m) a, m) ∈
      classes.flatMap moduleRegistrations :=
    List.mem_flatMap.2 ⟨m, hm, by
      simp only [moduleRegistrations, hal, List.mem_cons]
      exact Or.inr (List.mem_flatMap.2 ⟨a, ha, by simp⟩)⟩
  refine ⟨?_, ?_, ?_⟩
  · exact build_module_cache_lookup classes _ m ⟨_, hqmem, rfl⟩
      (fun p hp hpn => hnoconf p hp (Or.inl hpn))
  · exact build_module_cache_lookup classes _ m ⟨_, hamem, rfl⟩
      (fun p hp hpn => hnoconf p hp (Or.inr (Or.inl hpn)))
  · exact build_module_cache_lookup classes _ m ⟨_, hsmem, rfl⟩
      (fun p hp hpn => hnoconf p hp (Or.inr (Or.inr hpn)))

/-- Witness for C3: the spec's example — alias `"sample"` declared for
`pkg.mod.Sample` makes the cache resolve `"pkg.mod.Sample"`, `"sample"`
and `"pkg.mod.sample"` to the same class. -/
theorem akf_c3_alias_names_witness :
    alistGet (build_module_cache [sampleClass]) "pkg.mod.Sample" = some sampleClass ∧
    alistGet (build_module_cache [sampleClass]) "sample" = some sampleClass ∧
    alistGet (build_module_cache [sampleClass]) "pkg.mod.sample" = some sampleClass := by
  have h := akf_c3_alias_names [sampleClass] sampleClass ["sample"] "sample"
    (by simp) rfl (by simp) (by decide)
  have e1 : get_full_qualname sampleClass = "pkg.mod.Sample" := rfl
  rw [e1] at h
  have e2 : substFinalComponent "pkg.mod.Sample" "sample" = "pkg.mod.sample" := by decide
  rw [e2] at h
  exact h

/-- C4: in both engine modes the configuration passed to a module is
`mergedConfig`, the shallow top-level union of `scenario.config` with the
action's own `config` (see `runActions` and `translationActions`, which
both pass `mergedConfig scenario action` to the module): an action-level
key wins on any top-level collision, a key the action does not set falls
back to the scenario value, and a colliding nested mapping is replaced
wholesale by the action's mapping, with no deep merge. -/
theorem akf_c4_config_merge (scenario : AKFScenario) (action : AKFAction) (k : String) :
    (∀ v, alistGet action.config k = some v →
      alistGet (mergedConfig scenario action) k = some v) ∧
    (alistGet action.config k = Option.none →
      alistGet (mergedConfig scenario action) k = alistGet scenario.config k) ∧
    (∀ d, alistGet action.config k = some (PyVal.pyDict d) →
      alistGet (mergedConfig scenario action) k = some (PyVal.pyDict d)) :=
  ⟨fun _ h => dictUnion_get_right h, fun h => dictUnion_get_left h,
    fun _ h => dictUnion_get_right h⟩

/-- Witness for C4 on concrete configurations: the colliding scalar `"a"`
takes the action's value, the colliding nested mapping `"n"` is replaced
wholesale by the action's mapping (the scenario's `"x"` entry is gone),
and the scenario-only key `"b"` falls through. -/
theorem akf_c4_config_merge_witness :
    alistGet (mergedConfig mergeScenario mergeAction) "a" = some (PyVal.pyInt 2) ∧
    alistGet (mergedConfig mergeScenario mergeAction) "n" =
      some (PyVal.pyDict [("y", PyVal.pyInt 2)]) ∧
    alistGet (mergedConfig mergeScenario mergeAction) "b" =
      alistGet mergeScenario.config "b" := by
  refine ⟨(akf_c4_config_merge mergeScenario mergeAction "a").1 (PyVal.pyInt 2) rfl,
    (akf_c4_config_merge mergeScenario mergeAction "n").2.2 [("y", PyVal.pyInt 2)] rfl,
    (akf_c4_config_merge mergeScenario mergeAction "b").2.1 rfl⟩

set_option maxRecDepth 8192 in
/-- C5 counterexample: for a scenario whose seed is not set, the
generated program still contains the seeding statement
`random.seed(None)` (and `"random"` is still among the baseline
dependencies, witnessed by `import random` in the output), refuting the
claimed "no seeding statement when the seed is unset". -/
theorem akf_c5_counterexample :
    scenarioNoSeed.seed = Option.none ∧
    translation_entrypoint scenarioNoSeed [] = Except.ok noSeedGeneratedText ∧
    strContains "random.seed(None)" noSeedGeneratedText = true ∧
    strContains "import random" noSeedGeneratedText = true := by
  refine ⟨rfl, rfl, by decide, by decide⟩

/-- C5 as amended: the random-seed facility is always among the baseline
dependencies and the generated program always contains a seeding
statement, which interpolates the seed without quotes — `random.seed(<seed
string>)` when the seed is set and `random.seed(None)` when it is not. -/
theorem akf_c5_seed_always_emitted (scenario : AKFScenario)
    (modules : List (String × AKFModule)) :
    (∀ deps, translationDeps scenario modules = Except.ok deps → "random" ∈ deps) ∧
    (∀ t, translation_entrypoint scenario modules = Except.ok t →
      ∃ ib body, t = translationHeader ++ "\n\n" ++ ib ++ "\n\n" ++ loggingBlock ++
        "\n\n" ++ "random.seed(" ++ seedFString scenario.seed ++ ")\n\n" ++ body ++ "\n") := by
  constructor
  · intro deps hd
    unfold translationDeps at hd
    cases hc : collectDeps modules scenario.actions with
    | error e => rw [hc] at hd; simp [Functor.map, Except.map] at hd
    | ok ds =>
      rw [hc] at hd
      simp only [Functor.map, Except.map] at hd
      cases hd
      simp
  · intro t ht
    unfold translation_entrypoint at ht
    cases hd : translationDeps scenario modules with
    | error e => rw [hd] at ht; cases ht
    | ok deps =>
      rw [hd] at ht
      unfold translation_with_imports at ht
      cases ha : translationActions modules scenario scenario.actions
          translationInitialState with
      | error e => rw [ha] at ht; cases ht
      | ok p =>
        rw [ha] at ht
        obtain ⟨body, st⟩ := p
        cases ht
        exact ⟨generate_import_statements deps, body, rfl⟩

set_option maxRecDepth 8192 in
/-- Witness for C5 as amended, at the unset-seed scenario: `"random"` is
in the collected dependencies and the generated text decomposes around
the `random.seed(None)` statement. -/
theorem akf_c5_seed_always_emitted_witness :
    "random" ∈ (["logging", "random", "sys"] : List String) ∧
    (∃ ib body, noSeedGeneratedText = translationHeader ++ "\n\n" ++ ib ++ "\n\n" ++
      loggingBlock ++ "\n\n" ++ "random.seed(" ++ seedFString scenarioNoSeed.seed ++
      ")\n\n" ++ body ++ "\n") := by
  refine ⟨(akf_c5_seed_always_emitted scenarioNoSeed []).1 ["logging", "random", "sys"] rfl,
    (akf_c5_seed_always_emitted scenarioNoSeed []).2 noSeedGeneratedText rfl⟩

/-- C6 counterexample: on the dependency set `{"a", "b.c"}` the code
sorts the *rendered statements* (`from b import c` before `import a`),
while the claimed pipeline — deduplicate, then sort the dependency names,
then render — would put `import a` first; the two outputs differ. -/
theorem akf_c6_counterexample :
    generate_import_statements ["a", "b.c"] = "from b import c\nimport a" ∧
    generate_import_statements_specOrder ["a", "b.c"] = "import a\nfrom b import c" ∧
    generate_import_statements ["a", "b.c"] ≠
      generate_import_statements_specOrder ["a", "b.c"] := by
  refine ⟨rfl, rfl, by decide⟩

/-- C6 as amended: the import block is produced by rendering one
statement per dependency (single-segment names as bare imports, dotted
names as `from <container> import <final segment>`), then deduplicating
the statements, then sorting the *statements* lexicographically; the
output lines are exactly the rendered statements of the input, sorted and
duplicate-free.  In particular the engine's dependency set for modules
declaring `{"random"}` and `{"pathlib"}` yields one `import random` and
one `import pathlib`, each once, in sorted order. -/
theorem akf_c6_import_block_shape (import_paths : List String) :
    (∃ L, generate_import_statements import_paths = String.mk (joinWithChar '\n' L) ∧
      List.Sorted (· ≤ ·) L ∧ L.Nodup ∧
      (∀ s, s ∈ L ↔ ∃ p ∈ import_paths, renderImportChars p.data = s)) ∧
    generate_import_statements ["logging", "random", "sys", "random", "pathlib"] =
      "import logging\nimport pathlib\nimport random\nimport sys" := by
  constructor
  · refine ⟨_, rfl, List.sorted_insertionSort _ _,
      (List.perm_insertionSort _ _).nodup_iff.2 (List.nodup_dedup _), fun s => ?_⟩
    rw [(List.perm_insertionSort _ _).mem_iff, List.mem_dedup, List.mem_map]
  · rfl

set_option maxRecDepth 8192 in
/-- C7 counterexample: for the example action the generation engine emits
a `logger.info` line between the comment line and the module's output, so
the emitted fragment is not "comment, module output, blank line, nothing
else" as claimed. -/
theorem akf_c7_counterexample :
    translationActions exampleModules exampleScenario exampleScenario.actions
      translationInitialState = Except.ok (pickFragment, translationInitialState) ∧
    pickFragment = "# pick\nlogger.info(r\x27Executing action: pick\x27)\n" ++
      sampleGeneratedCode ++ "\n" ∧
    pickFragment ≠ pickClaimFragment := by
  refine ⟨rfl, rfl, by decide⟩

/-- C7 as amended: for each action, in declared order, the generation
engine emits exactly a comment line with the action's name, then a
`logger.info` statement echoing the action's name, then the module's
`generate_code` output for the typed arguments and merged configuration,
then one extra newline (one blank line when the module output ends with
its single trailing newline). -/
theorem akf_c7_action_emission (modules : List (String × AKFModule))
    (scenario : AKFScenario) (action : AKFAction) (rest : List AKFAction)
    (state state' stFinal : List (String × PyVal)) (m : AKFModule)
    (code restText : String)
    (hm : alistGet modules action.module = some m)
    (hc : generate_code_from_module m action.args (mergedConfig scenario action) state =
      Except.ok (code, state'))
    (hrest : translationActions modules scenario rest state' =
      Except.ok (restText, stFinal)) :
    translationActions modules scenario (action :: rest) state =
      Except.ok ("# " ++ action.name ++ "\n" ++
        "logger.info(r\x27Executing action: " ++ action.name ++ "\x27)\n" ++
        code ++ "\n" ++ restText, stFinal) := by
  simp [translationActions, hm, hc, hrest, Functor.map, Except.map]

set_option maxRecDepth 8192 in
/-- Witness for C7 as amended at the example action: the emitted text is
the comment line, the logger line, the sample module's output, and one
extra newline. -/
theorem akf_c7_action_emission_witness :
    translationActions exampleModules exampleScenario [pickAction]
      translationInitialState =
      Except.ok ("# " ++ pickAction.name ++ "\n" ++
        "logger.info(r\x27Executing action: " ++ pickAction.name ++ "\x27)\n" ++
        sampleGeneratedCode ++ "\n" ++ "", translationInitialState) :=
  akf_c7_action_emission exampleModules exampleScenario pickAction []
    translationInitialState translationInitialState translationInitialState
    (sampleModule pickFst) sampleGeneratedCode "" rfl rfl rfl

/-- C8 counterexample: in `scenarioBadArgs` the second action `"pick1"`
is missing the required field `arg2`.  The run aborts with the module's
pydantic error, which names the model and the offending field `arg2` but
not the action `"pick1"`; the claimed "names both the action and the
offending field" fails.  (The true parts hold: the scenario aborts and no
subsequent `execute` runs — only `"pick0"` was executed.) -/
theorem akf_c8_counterexample :
    (execution_entrypoint scenarioBadArgs exampleModules).run.error =
      some (EngineError.validation ⟨"SampleModuleArgs", ["arg2"]⟩) ∧
    (execution_entrypoint scenarioBadArgs exampleModules).run.executed = ["pick0"] ∧
    errMentions ⟨"SampleModuleArgs", ["arg2"]⟩ "arg2" = true ∧
    errMentions ⟨"SampleModuleArgs", ["arg2"]⟩ "pick1" = false ∧
    (execution_entrypoint scenarioBadArgs exampleModules).run.logs =
      ["Executing action: pick0", "Executing action: pick1"] := by
  refine ⟨rfl, rfl, rfl, rfl, rfl⟩

/-- C8 as amended: when an action's `args` fail schema validation, the
whole scenario aborts with the module's validation error, which names the
offending field(s); the failing action is identified only by the
engine's preceding `logger.info` line, not by the error itself; and the
`execute` of the failing action and of every subsequent action is never
invoked (the executed actions are exactly those of the prefix before the
failure). -/
theorem akf_c8_validation_abort (modules : List (String × AKFModule))
    (scenario : AKFScenario) (pre : List AKFAction) (action : AKFAction)
    (rest : List AKFAction) (m : AKFModule) (e : ValidationError)
    (hacts : scenario.actions = pre ++ action :: rest)
    (hpre : (runActions modules scenario pre []).error = Option.none)
    (hm : alistGet modules action.module = some m)
    (he : execute_module m action.args (mergedConfig scenario action)
      (runActions modules scenario pre []).finalState = Except.error e) :
    (execution_entrypoint scenario modules).run.error =
      some (EngineError.validation e) ∧
    (execution_entrypoint scenario modules).run.executed =
      (runActions modules scenario pre []).executed ∧
    (execution_entrypoint scenario modules).run.output =
      (runActions modules scenario pre []).output ∧
    (execution_entrypoint scenario modules).run.logs =
      (runActions modules scenario pre []).logs ++
        ["Executing action: " ++ action.name] := by
  have hstep : runActions modules scenario (action :: rest)
      (runActions modules scenario pre []).finalState =
      ⟨[], [], ["Executing action: " ++ action.name],
        (runActions modules scenario pre []).finalState,
        some (EngineError.validation e)⟩ := by
    simp [runActions, hm, he]
  have happ := runActions_append modules scenario pre (action :: rest) [] hpre
  have hrun : (execution_entrypoint scenario modules).run =
      runActions modules scenario (pre ++ action :: rest) [] := by
    simp [execution_entrypoint, hacts]
  rw [hrun, happ, hstep]
  simp

/-- Witness for C8 as amended, at `scenarioBadArgs`: after the valid
`"pick0"`, the invalid `"pick1"` aborts the run with the module's error,
only `"pick0"`'s `execute` ran, and the last log line names the failing
action. -/
theorem akf_c8_validation_abort_witness :
    (execution_entrypoint scenarioBadArgs exampleModules).run.error =
      some (EngineError.validation ⟨"SampleModuleArgs", ["arg2"]⟩) ∧
    (execution_entrypoint scenarioBadArgs exampleModules).run.executed =
      (runActions exampleModules scenarioBadArgs [goodAction] []).executed ∧
    (execution_entrypoint scenarioBadArgs exampleModules).run.output =
      (runActions exampleModules scenarioBadArgs [goodAction] []).output ∧
    (execution_entrypoint scenarioBadArgs exampleModules).run.logs =
      (runActions exampleModules scenarioBadArgs [goodAction] []).logs ++
        ["Executing action: " ++ badAction.name] :=
  akf_c8_validation_abort exampleModules scenarioBadArgs [goodAction] badAction
    [afterAction] (sampleModule pickFst) ⟨"SampleModuleArgs", ["arg2"]⟩ rfl rfl rfl rfl

/-- C9: the only order-sensitive ingredient of the generated program is
the enumeration of the dependency `set`; for any two enumerations of that
set the assembled program text is byte-identical, and equal to the
engine's own output.  Everything else in the text (header, logging block,
seed statement, per-action fragments) is a deterministic function of the
scenario and the resolved modules, so a fixed scenario and module set
always yield byte-identical text. -/
theorem akf_c9_deterministic_output (scenario : AKFScenario)
    (modules : List (String × AKFModule)) (deps iter1 iter2 : List String)
    (hd : translationDeps scenario modules = Except.ok deps)
    (h1 : ∀ x, x ∈ iter1 ↔ x ∈ deps) (h2 : ∀ x, x ∈ iter2 ↔ x ∈ deps) :
    translation_with_imports scenario modules (generate_import_statements iter1) =
      translation_with_imports scenario modules (generate_import_statements iter2) ∧
    translation_with_imports scenario modules (generate_import_statements iter1) =
      translation_entrypoint scenario modules := by
  have e1 : generate_import_statements iter1 = generate_import_statements deps :=
    generate_import_statements_ext _ _ h1
  have e2 : generate_import_statements iter2 = generate_import_statements deps :=
    generate_import_statements_ext _ _ h2
  rw [e1, e2]
  exact ⟨rfl, by simp [translation_entrypoint, hd]⟩

set_option maxRecDepth 8192 in
/-- Witness for C9 at the example scenario: two different enumerations of
the dependency set produce the same text, equal to the engine's output. -/
theorem akf_c9_deterministic_output_witness :
    translation_with_imports exampleScenario exampleModules
      (generate_import_statements ["logging", "random", "sys", "random"]) =
      translation_with_imports exampleScenario exampleModules
        (generate_import_statements ["sys", "logging", "random"]) ∧
    translation_with_imports exampleScenario exampleModules
      (generate_import_statements ["logging", "random", "sys", "random"]) =
      translation_entrypoint exampleScenario exampleModules :=
  akf_c9_deterministic_output exampleScenario exampleModules
    ["logging", "random", "sys", "random"] ["logging", "random", "sys", "random"]
    ["sys", "logging", "random"] rfl (fun _ => Iff.rfl)
    (fun x => by simp only [List.mem_cons, List.not_mem_nil, or_false]; tauto)

/-- C10: `AKFModule.__init_subclass__` rejects, at class definition time,
any subclass shape that provides none of `aliases`, `arg_model`,
`config_model`, `dependencies` — neither as attribute values nor as own
annotations — raising a `TypeError` (for the first missing name,
`aliases`); a subclass shape providing all four is accepted.  On
Python ≥ 3.10 `getattr(cls, "__annotations__", {})` yields the class's
own annotations (empty for an annotation-free body), so a bare subclass
really is rejected. -/
theorem akf_c10_required_attribute_check (cls : PyClassShape) :
    ((∀ attr ∈ requiredAttributes, hasRequiredAttribute cls attr = false) →
      initSubclassCheck cls = Except.error ("Can\x27t instantiate abstract class " ++
        cls.clsName ++ " without required attribute \x27" ++ "aliases" ++ "\x27")) ∧
    ((∀ attr ∈ requiredAttributes, hasRequiredAttribute cls attr = true) →
      initSubclassCheck cls = Except.ok ()) := by
  constructor
  · intro h
    have h1 := h "aliases" (by simp [requiredAttributes])
    simp [initSubclassCheck, check_required_attributes, requiredAttributes,
      List.find?, h1]
  · intro h
    have h1 := h "aliases" (by simp [requiredAttributes])
    have h2 := h "arg_model" (by simp [requiredAttributes])
    have h3 := h "config_model" (by simp [requiredAttributes])
    have h4 := h "dependencies" (by simp [requiredAttributes])
    simp [initSubclassCheck, check_required_attributes, requiredAttributes,
      List.find?, h1, h2, h3, h4]

/-- Witness for C10: the bare subclass shape is rejected with the
`TypeError` message and the `SampleModule` shape is accepted. -/
theorem akf_c10_required_attribute_check_witness :
    initSubclassCheck badClass =
      Except.error "Can\x27t instantiate abstract class Bad without required attribute \x27aliases\x27" ∧
    initSubclassCheck goodClass = Except.ok () := by
  constructor
  · have h := (akf_c10_required_attribute_check badClass).1 (by decide)
    rw [h]
    rfl
  · exact (akf_c10_required_attribute_check goodClass).2 (by decide)

set_option maxRecDepth 8192 in
/-- C1: on the spec's own example scenario (seed `"42"`, one `"pick"`
action of the sample module) the execution engine passes the Python
*string* `"42"` to `random.seed`, while the generated program contains
the statement `random.seed(42)` — the seed is interpolated without
quotes, so the program seeds the PRNG with the *int* 42 — and does not
contain `random.seed('42')`.  The two seed values are distinct Python
values, so the two modes start from different PRNG states; concretely
(CPython 3.11) execution prints `I choose tails` while the generated
program prints `I choose heads`, refuting the round-trip equivalence on
this example. -/
theorem akf_c1_seed_representation_divergence :
    (execution_entrypoint exampleScenario exampleModules).seedArg = PyVal.pyStr "42" ∧
    translation_entrypoint exampleScenario exampleModules =
      Except.ok exampleGeneratedText ∧
    strContains "random.seed(42)\n" exampleGeneratedText = true ∧
    strContains "random.seed(\x2742\x27)" exampleGeneratedText = false ∧
    pyLiteralValue "42" = some (PyVal.pyInt 42) ∧
    (PyVal.pyInt 42 = PyVal.pyStr "42" → False) := by
  refine ⟨rfl, rfl, by decide, by decide, rfl, fun h => by cases h⟩
